import Mathlib

/-!
Verification development for the realtime relay of the round-note backend
(`backend/api/v1/realtime/endpoints.py` and `backend/core/storage/service.py`).

The Python coroutines are embedded shallowly as pure step functions:
one inbound message (client message, vendor transcript message, summarizer
timer tick, summarization-cycle outcome) is mapped to the state it leaves
behind and the list of observable effects it produces, in program order.
`time.time()` values are modelled as rationals, Python `float` arithmetic on
them as exact rational arithmetic, and byte strings as lists of naturals.
A worker body that lets an exception escape its receive loop (terminating
the worker) is modelled as `Except.error ()`.
-/

namespace RoundNote

/-- Result of Python `json.loads` on a client text frame: numbers, strings,
booleans, null, arrays and objects (objects as association lists of their
entries; `json.loads` yields a `dict`, so keys are distinct). -/
inductive Json where
  | null : Json
  | bool (b : Bool) : Json
  | num (n : Int) : Json
  | str (s : String) : Json
  | arr (elems : List Json) : Json
  | obj (fields : List (String × Json)) : Json

/-- `TranscribeSettings` from `endpoints.py`: the mutable per-connection
feature flags shared by all workers (`translate`, `summary`, `is_paused`).
`is_paused` is initialised to `false` by `__init__`. -/
structure TranscribeSettings where
  translate : Bool
  summary : Bool
  is_paused : Bool
deriving DecidableEq

/-- JSON messages the server sends to the client over the websocket,
one constructor per `type` value sent by `endpoints.py`.  The
`partial_transcript` message of the source is modelled by the
`interim_transcript` constructor. -/
inductive ServerEvent where
  | final_transcript (text : String) : ServerEvent
  | interim_transcript (text : String) : ServerEvent
  | setting_update_translate (value : Bool) : ServerEvent
  | setting_update_paused (value : Bool) : ServerEvent
  | summary_generating (sequence : Nat) (time_window : String) : ServerEvent
  | timeline_summary (sequence : Nat) (time_window : String)
      (content : String) (rolling_summary : String) (timestamp : ℚ) : ServerEvent
  | summary_error (message : String) : ServerEvent
  | translation (original_text : String) (translated_text : String) : ServerEvent
deriving DecidableEq

/-- Observable effects of one iteration of the Uplink Worker's receive loop
(`handle_client_uplink`): forwarding audio to the Deepgram socket, writing a
chunk to the local wave file (the Audio Sink), or sending a JSON message to
the client. -/
inductive UplinkEffect where
  | forward_vendor (data : List Nat) : UplinkEffect
  | write_sink (data : List Nat) : UplinkEffect
  | send_client (e : ServerEvent) : UplinkEffect
deriving DecidableEq

/-- One inbound client websocket message, as seen by `handle_client_uplink`:
a binary frame (`message["bytes"]`), or a text frame already passed through
`json.loads` (`none` models a `json.JSONDecodeError`). -/
inductive ClientMessage where
  | binary (data : List Nat) : ClientMessage
  | text (parsed : Option Json) : ClientMessage

/-- Python `dict.get` on the parsed control message, for the key lookups
`control_msg.get("command")` and `control_msg.get("value")`. -/
def lookup_field (fields : List (String × Json)) (key : String) : Option Json :=
  match fields with
  | [] => none
  | (k, v) :: rest => if k = key then some v else lookup_field rest key

/-- Python `==` between the result of a `dict.get` and a string literal:
true exactly when the value is present and is that string. -/
def json_eq_str (j : Option Json) (s : String) : Bool :=
  match j with
  | some (Json.str t) => t == s
  | _ => false

/-- The control-message branch of `handle_client_uplink` (lines 162-183 of
`endpoints.py`).  `json.loads` failures (`parsed = none`) are swallowed by
the inner `except json.JSONDecodeError` handler.  A successfully parsed
JSON value that is not an object has no `.get` method, so
`control_msg.get("command")` raises `AttributeError`; the inner handler
does not catch it, the loop's `try` does, and the worker terminates —
modelled as `Except.error ()`. -/
def handle_control_text (parsed : Option Json) (settings : TranscribeSettings) :
    Except Unit (TranscribeSettings × List UplinkEffect) :=
  match parsed with
  | none => Except.ok (settings, [])
  | some (Json.obj fields) =>
    let command := lookup_field fields "command"
    let value := lookup_field fields "value"
    if json_eq_str command "SET_TRANSLATE" then
      match value with
      | some (Json.bool b) =>
        Except.ok ({ settings with translate := b },
          [UplinkEffect.send_client (ServerEvent.setting_update_translate b)])
      | _ => Except.ok (settings, [])
    else if json_eq_str command "SET_PAUSED" then
      match value with
      | some (Json.bool b) =>
        Except.ok ({ settings with is_paused := b },
          [UplinkEffect.send_client (ServerEvent.setting_update_paused b)])
      | _ => Except.ok (settings, [])
    else Except.ok (settings, [])
  | some _ => Except.error ()

/-- One iteration of the Uplink Worker's receive loop
(`handle_client_uplink`, lines 140-183 of `endpoints.py`).  A binary frame
is forwarded to the vendor only when non-empty (`message.get("bytes")` is
falsy on `b""`, and the inner guard repeats `len(audio_data) > 0`), and is
additionally written to the Audio Sink only when the session is not paused.
A zero-length frame does nothing and the loop continues. -/
def handle_client_uplink_step (message : ClientMessage) (settings : TranscribeSettings) :
    Except Unit (TranscribeSettings × List UplinkEffect) :=
  match message with
  | ClientMessage.binary data =>
    if data.length > 0 then
      Except.ok (settings,
        [UplinkEffect.forward_vendor data] ++
          (if !settings.is_paused then [UplinkEffect.write_sink data] else []))
    else
      Except.ok (settings, [])
  | ClientMessage.text parsed => handle_control_text parsed settings

/-- One entry of `summary_state["transcript_buffer"]`: a dict
`{"text": str, "timestamp": float}`. -/
structure TranscriptItem where
  text : String
  timestamp : ℚ
deriving DecidableEq

/-- The `summary_state` dict created by `websocket_endpoint` (lines 45-53 of
`endpoints.py`), shared by the Downlink Worker and the Periodic Summarizer. -/
structure SummaryState where
  transcript_buffer : List TranscriptItem
  previous_summary : String
  first_transcript_time : Option ℚ
  last_summary_time : Option ℚ
  sequence : Nat
  summary_interval : ℚ
  min_text_length : Nat
deriving DecidableEq

/-- The initial `summary_state` of a connection: empty buffer, no times,
sequence 0, 60-second interval, 100-character minimum text length. -/
def initial_summary_state : SummaryState :=
  { transcript_buffer := []
    previous_summary := ""
    first_transcript_time := none
    last_summary_time := none
    sequence := 0
    summary_interval := 60
    min_text_length := 100 }

/-- One word of a Deepgram alternative; `speaker` models
`words[0].get("speaker")`, absent when diarization supplies no id. -/
structure DGWord where
  speaker : Option Nat
deriving DecidableEq

/-- The parts of one Deepgram message that `forward_to_client` inspects:
`result.get("type")`, the transcript of the first alternative (already
defaulted to `""` by the chained `.get` calls), its `words` list, and the
`is_final` flag. -/
structure DeepgramResult where
  type : Option String
  transcript : String
  words : List DGWord
  is_final : Bool

/-- Speaker-tag construction of `forward_to_client` (lines 232-235):
`speaker_id = words[0].get("speaker") if words else None`, then
`speaker_tag = f"[Speaker ..] " if speaker_id is not None else ""`. -/
def speaker_tag (words : List DGWord) : String :=
  match words.head? with
  | none => ""
  | some w =>
    match w.speaker with
    | some speaker_id => "[Speaker " ++ toString speaker_id ++ "] "
    | none => ""

/-- The buffering step of `forward_to_client` (lines 241-254): append
`{"text": final_text, "timestamp": current_time}` to the transcript buffer,
then record `first_transcript_time` if it is still `None`. -/
def buffer_final_transcript (st : SummaryState) (final_text : String)
    (current_time : ℚ) : SummaryState :=
  let st1 := { st with
    transcript_buffer := st.transcript_buffer ++ [TranscriptItem.mk final_text current_time] }
  if st1.first_transcript_time.isNone then
    { st1 with first_transcript_time := some current_time }
  else st1

/-- Observable effects of one iteration of the Downlink Worker
(`forward_to_client`): a JSON message sent to the client, or a
fire-and-forget translation task created with `asyncio.create_task`. -/
inductive DownlinkEffect where
  | send_client (e : ServerEvent) : DownlinkEffect
  | dispatch_translation (text : String) : DownlinkEffect
deriving DecidableEq

/-- One iteration of the Downlink Worker's `async for` loop
(`forward_to_client`, lines 217-264 of `endpoints.py`): skip metadata and
utterance-end messages, skip empty transcripts, speaker-tag and forward
final transcripts (buffering them for summarization when the feature is on
and the session is not paused, and dispatching a translation when
translation is on), and forward interim transcripts untouched. -/
def forward_to_client_step (settings : TranscribeSettings) (st : SummaryState)
    (result : DeepgramResult) (current_time : ℚ) : SummaryState × List DownlinkEffect :=
  if result.type = some "Metadata" ∨ result.type = some "UtteranceEnd" then
    (st, [])
  else if result.transcript = "" then
    (st, [])
  else if result.is_final then
    let final_text := speaker_tag result.words ++ result.transcript
    let st' :=
      if settings.summary && !settings.is_paused then
        buffer_final_transcript st final_text current_time
      else st
    (st',
      [DownlinkEffect.send_client (ServerEvent.final_transcript final_text)] ++
        (if settings.translate then
          [DownlinkEffect.dispatch_translation final_text]
        else []))
  else
    (st, [DownlinkEffect.send_client (ServerEvent.interim_transcript result.transcript)])

/-- Number of fire-and-forget translation tasks among a list of downlink
effects. -/
def translation_dispatch_count (effects : List DownlinkEffect) : Nat :=
  (effects.filter fun e =>
    match e with
    | DownlinkEffect.dispatch_translation _ => true
    | _ => false).length

/-- Floor of a rational to an integer, the value Python's float floor
division and modulo are built on. -/
def rat_floor_z (q : ℚ) : Int :=
  ⌊q⌋

/-- Python float floor division `a // b` (result is again a float). -/
def pyFloorDiv (a b : ℚ) : ℚ :=
  (rat_floor_z (a / b) : ℚ)

/-- Python float modulo: `a % b = a - (a // b) * b`. -/
def pyMod (a b : ℚ) : ℚ :=
  a - (pyFloorDiv a b) * b

/-- Python `int(..)` on a float: truncation toward zero. -/
def pyInt (q : ℚ) : Int :=
  if 0 ≤ q then rat_floor_z q else -(rat_floor_z (-q))

/-- Python format spec `02d`: decimal rendering zero-padded on the left to
width two (a sign counts toward the width). -/
def pad2 (n : Int) : String :=
  if 0 ≤ n ∧ n < 10 then "0" ++ toString n else toString n

/-- The `time_window` label computed by `get_summary_and_send`
(lines 356-358 of `endpoints.py`): the start-minutes component is
`int((elapsed_total - interval) // 60)` only when `sequence > 1`, and `0`
for the first cycle, while the start-seconds component is always
`int((elapsed_total - interval) % 60)`. -/
def time_window (sequence : Nat) (elapsed_total summary_interval : ℚ) : String :=
  let start_minutes : Int :=
    if sequence > 1 then pyInt (pyFloorDiv (elapsed_total - summary_interval) 60) else 0
  let end_minutes : Int := pyInt (pyFloorDiv elapsed_total 60)
  pad2 start_minutes ++ ":" ++ pad2 (pyInt (pyMod (elapsed_total - summary_interval) 60)) ++
    " - " ++ pad2 end_minutes ++ ":" ++ pad2 (pyInt (pyMod elapsed_total 60))

/-- Modelled from the spec: rendering of a duration as `MM:SS` (minutes and
seconds components, each zero-padded to two digits). -/
def mmss (q : ℚ) : String :=
  pad2 (pyInt (pyFloorDiv q 60)) ++ ":" ++ pad2 (pyInt (pyMod q 60))

/-- Modelled from the spec: the claimed `time_window` label, the span
`[elapsed - interval, elapsed]` rendered as `MM:SS - MM:SS`, whose start
component equals `elapsed - interval` formatted as minutes and seconds for
every sequence number.  Used only for comparison with `time_window`, which
is the label the code computes. -/
def spec_time_window (elapsed_total summary_interval : ℚ) : String :=
  mmss (elapsed_total - summary_interval) ++ " - " ++ mmss elapsed_total

/-- Return value of `llm_service.generate_timeline_summary`. -/
structure SummaryResult where
  incremental_summary : String
  rolling_summary : String
deriving DecidableEq

/-- One summarization cycle (`get_summary_and_send`, lines 331-398 of
`endpoints.py`), with the sampled `time.time()` and the outcome of the
summarization call as inputs.  Mirrors the source order: early return on an
empty buffer, increment `sequence`, compute the time window from
`first_transcript_time` (a missing first time raises inside the `try` and
only `summary_error` is sent; the window and `summary_generating` message
are never reached), send `summary_generating`, call the LLM, and on success
send `timeline_summary`, update `previous_summary` and `last_summary_time`,
and clear the buffer.  On a failed call the `except` branch sends
`summary_error` and performs no state update beyond the already-incremented
`sequence`. -/
def get_summary_and_send (st : SummaryState) (current_time : ℚ)
    (llm : Except String SummaryResult) : SummaryState × List ServerEvent :=
  let buffer_texts := st.transcript_buffer.map (·.text)
  if buffer_texts.isEmpty then
    (st, [])
  else
    let st1 := { st with sequence := st.sequence + 1 }
    match st.first_transcript_time with
    | none => (st1, [ServerEvent.summary_error "unsupported operand type"])
    | some first_time =>
      let elapsed_total := current_time - first_time
      let tw := time_window st1.sequence elapsed_total st.summary_interval
      match llm with
      | Except.error msg =>
        (st1, [ServerEvent.summary_generating st1.sequence tw,
               ServerEvent.summary_error msg])
      | Except.ok result =>
        ({ st1 with
            previous_summary := result.rolling_summary
            last_summary_time := some current_time
            transcript_buffer := [] },
         [ServerEvent.summary_generating st1.sequence tw,
          ServerEvent.timeline_summary st1.sequence tw result.incremental_summary
            result.rolling_summary current_time])

/-- Python `summary_state["last_summary_time"] or summary_state["first_transcript_time"]`:
`or` returns its second operand when the first is falsy, and both `None`
and the float `0.0` are falsy. -/
def pyOrTime (last : Option ℚ) (first : ℚ) : ℚ :=
  match last with
  | none => first
  | some t => if t = 0 then first else t

/-- The decision taken by one timer tick of `periodic_summary_task`
(lines 286-323 of `endpoints.py`): `true` exactly when the tick creates a
`get_summary_and_send` task.  Mirrors the source guards in order: skip when
paused, when no first transcript exists, or when the buffer is empty; then
dispatch only when the elapsed time since the reference time reaches the
interval and the buffered texts joined by `" "` reach the minimum length. -/
def periodic_summary_tick_dispatches (settings : TranscribeSettings)
    (st : SummaryState) (current_time : ℚ) : Bool :=
  if settings.is_paused then false
  else
    match st.first_transcript_time with
    | none => false
    | some first =>
      if st.transcript_buffer.isEmpty then false
      else
        let reference := pyOrTime st.last_summary_time first
        let elapsed := current_time - reference
        if st.summary_interval ≤ elapsed then
          let total_text := String.intercalate " " (st.transcript_buffer.map (·.text))
          if st.min_text_length ≤ total_text.length then true else false
        else false

/-- A step of one session's summary-state history: a buffered final
transcript (the Downlink Worker's append path) or a summarization cycle
with its sampled time and LLM outcome. -/
inductive SessionStep where
  | append_final (text : String) (current_time : ℚ) : SessionStep
  | cycle (current_time : ℚ) (llm : Except String SummaryResult) : SessionStep

/-- Run a list of session steps from a summary state, collecting every
server event the summarization cycles emit, in order. -/
def run_steps (st : SummaryState) : List SessionStep → SummaryState × List ServerEvent
  | [] => (st, [])
  | SessionStep.append_final t now :: rest =>
    run_steps (buffer_final_transcript st t now) rest
  | SessionStep.cycle now llm :: rest =>
    let r := get_summary_and_send st now llm
    let r2 := run_steps r.1 rest
    (r2.1, r.2 ++ r2.2)

/-- Sequence numbers of the `timeline_summary` events in a list, in order. -/
def timeline_sequence_numbers (events : List ServerEvent) : List Nat :=
  events.filterMap fun e =>
    match e with
    | ServerEvent.timeline_summary s _ _ _ _ => some s
    | _ => none

/-- Sequence numbers of the `summary_generating` events in a list, in order. -/
def generating_sequence_numbers (events : List ServerEvent) : List Nat :=
  events.filterMap fun e =>
    match e with
    | ServerEvent.summary_generating s _ => some s
    | _ => none

/-- The external `ulid` library, modelled as a counter of distinct
identifiers: each evaluation of `ulid.new()` yields a fresh ULID string and
advances the counter. -/
def ulid_new (counter : Nat) : String × Nat :=
  ("01ULID" ++ toString counter, counter + 1)

/-- Import-time initialisation of `backend/core/storage/service.py`: the
default value of the `meeting_id` parameter of `create_local_wave_file`,
the expression `str(ulid.new())`, is evaluated exactly once, when the `def`
statement runs, and the resulting string is stored with the function. -/
def storage_module_default (counter : Nat) : String × Nat :=
  ulid_new counter

/-- `StorageService.create_local_wave_file` (lines 50-60 of
`backend/core/storage/service.py`): the path of the wave file opened for
writing is `./audio_storage/<meeting_id>.wav`, with `meeting_id` falling
back to the default computed at definition time when the argument is
omitted. -/
def create_local_wave_file (default_meeting_id : String)
    (meeting_id : Option String) : String :=
  "./audio_storage/" ++ meeting_id.getD default_meeting_id ++ ".wav"

/-- Wave-file paths of `n` successive sessions, each calling
`storage_service.create_local_wave_file()` with the `meeting_id` argument
omitted, as `websocket_endpoint` does (line 57 of `endpoints.py`).  The
default argument is not re-evaluated per call: every call reuses the value
computed at module import. -/
def session_wave_paths (counter : Nat) (n : Nat) : List String :=
  let d := (storage_module_default counter).1
  (List.range n).map fun _ => create_local_wave_file d none

/-- A 100-character transcript line, used as a concrete buffered text that
meets the 100-character minimum length. -/
def demo_text : String :=
  String.mk (List.replicate 100 'a')

/-- A concrete reachable summary state: one 100-character transcript
buffered at time 0, which set `first_transcript_time`, and no summary
produced yet. -/
def demo_ready_state : SummaryState :=
  { initial_summary_state with
      transcript_buffer := [TranscriptItem.mk demo_text 0]
      first_transcript_time := some 0 }

/-- A concrete summary-state history: a transcript at time 0, a successful
cycle at time 60, a second transcript at time 70, a failed cycle at time
130, and a successful cycle at time 200. -/
def demo_steps : List SessionStep :=
  [SessionStep.append_final "a" 0,
   SessionStep.cycle 60 (Except.ok (SummaryResult.mk "i1" "r1")),
   SessionStep.append_final "b" 70,
   SessionStep.cycle 130 (Except.error "boom"),
   SessionStep.cycle 200 (Except.ok (SummaryResult.mk "i3" "r3"))]

/-- A concrete summary state with a nonempty buffer and a recorded first
transcript time, as left behind by one buffered transcript at time 0. -/
def demo_small_state : SummaryState :=
  { initial_summary_state with
      transcript_buffer := [TranscriptItem.mk "a" 0]
      first_transcript_time := some 0 }

/-- Session settings with translation off, summarization on, not paused. -/
def demo_summary_settings : TranscribeSettings :=
  { translate := false, summary := true, is_paused := false }

/-- A concrete final Deepgram transcript event whose first word carries
speaker id 0. -/
def demo_dg_final : DeepgramResult :=
  { type := none
    transcript := "hello"
    words := [DGWord.mk (some 0)]
    is_final := true }

/- ------------------------------------------------------------------ -/
/- Helper lemmas -/
/- ------------------------------------------------------------------ -/

/-- Mapping a function over a list preserves emptiness. -/
theorem map_isEmpty_eq {α β : Type} (f : α → β) (l : List α) :
    (l.map f).isEmpty = l.isEmpty := by
  cases l <;> rfl

/-- When the stored `last_summary_time` is not the (physically impossible)
float `0.0`, the Python `or` fallback agrees with `Option.getD`. -/
theorem pyOrTime_eq_getD (last : Option ℚ) (first : ℚ) (h : last ≠ some 0) :
    pyOrTime last first = last.getD first := by
  cases last with
  | none => rfl
  | some t =>
    have ht : t ≠ 0 := fun h0 => h (by rw [h0])
    simp [pyOrTime, ht]

/-- Characterisation of `json_eq_str`: it is true exactly on the matching
JSON string value. -/
theorem json_eq_str_true_iff (j : Option Json) (s : String) :
    json_eq_str j s = true ↔ j = some (Json.str s) := by
  cases j with
  | none => simp [json_eq_str]
  | some v => cases v <;> simp [json_eq_str]

/- ------------------------------------------------------------------ -/
/- Claim theorems -/
/- ------------------------------------------------------------------ -/

/-- C9: a zero-length inbound binary client message forwards nothing to the
vendor connection, appends nothing to the Audio Sink, changes no settings,
and is not an error: the Uplink Worker's loop iteration returns normally
with no effects. -/
theorem zero_length_frame_noop (settings : TranscribeSettings) :
    handle_client_uplink_step (ClientMessage.binary []) settings =
      Except.ok (settings, []) :=
  rfl

/-- C3: for a final transcript event that is forwarded, the text sent to
the client in the `final_transcript` event is the speaker tag followed by
the transcript, where the tag is `"[Speaker S] "` when the first word
carries speaker id `S`, and empty when there are no words or the first word
has no speaker id. -/
theorem final_transcript_speaker_tag (settings : TranscribeSettings)
    (st : SummaryState) (result : DeepgramResult) (current_time : ℚ)
    (hskip : ¬(result.type = some "Metadata" ∨ result.type = some "UtteranceEnd"))
    (ht : result.transcript ≠ "") (hf : result.is_final = true) :
    (∃ rest, (forward_to_client_step settings st result current_time).2 =
      DownlinkEffect.send_client (ServerEvent.final_transcript
        (speaker_tag result.words ++ result.transcript)) :: rest) ∧
    (∀ w ws s, result.words = w :: ws → w.speaker = some s →
      speaker_tag result.words = "[Speaker " ++ toString s ++ "] ") ∧
    (result.words = [] → speaker_tag result.words = "") ∧
    (∀ w ws, result.words = w :: ws → w.speaker = none →
      speaker_tag result.words = "") := by
  refine ⟨?_, ?_, ?_, ?_⟩
  · simp only [forward_to_client_step, if_neg hskip, if_neg ht, hf, if_true]
    exact ⟨_, rfl⟩
  · intro w ws s hw hs
    simp [speaker_tag, hw, hs]
  · intro hw
    simp [speaker_tag, hw]
  · intro w ws hw hs
    simp [speaker_tag, hw, hs]

/-- C3 witness: a concrete final event whose first word carries speaker
id 0 produces the tag `"[Speaker 0] "`. -/
theorem final_transcript_speaker_tag_witness :
    demo_dg_final.words = DGWord.mk (some 0) :: [] ∧
    speaker_tag demo_dg_final.words = "[Speaker " ++ toString (0 : Nat) ++ "] " :=
  ⟨rfl,
    (final_transcript_speaker_tag (TranscribeSettings.mk true false false)
        initial_summary_state demo_dg_final 0 (by decide) (by decide) rfl).2.1
      (DGWord.mk (some 0)) [] 0 rfl rfl⟩

/-- C5: for a forwarded final transcript event, exactly one translation
task is dispatched when `translate` is enabled at that moment and none when
it is disabled; an interim (partial) transcript event dispatches no
translation and leaves the summary buffer untouched. -/
theorem translation_dispatch_policy (settings : TranscribeSettings)
    (st : SummaryState) (result : DeepgramResult) (current_time : ℚ)
    (hskip : ¬(result.type = some "Metadata" ∨ result.type = some "UtteranceEnd"))
    (ht : result.transcript ≠ "") :
    (result.is_final = true →
      translation_dispatch_count (forward_to_client_step settings st result current_time).2 =
        if settings.translate then 1 else 0) ∧
    (result.is_final = false →
      translation_dispatch_count (forward_to_client_step settings st result current_time).2 = 0 ∧
      (forward_to_client_step settings st result current_time).1 = st) := by
  constructor
  · intro hf
    simp only [forward_to_client_step, if_neg hskip, if_neg ht, hf, if_true]
    cases htr : settings.translate <;>
      simp [translation_dispatch_count, htr]
  · intro hf
    simp [forward_to_client_step, if_neg hskip, if_neg ht, hf,
      translation_dispatch_count]

/-- C5 witness: with translation enabled, the concrete final event
dispatches exactly one translation task. -/
theorem translation_dispatch_policy_witness :
    demo_dg_final.is_final = true ∧
    translation_dispatch_count
      (forward_to_client_step (TranscribeSettings.mk true false false)
        initial_summary_state demo_dg_final 0).2 = 1 :=
  ⟨rfl,
    (translation_dispatch_policy (TranscribeSettings.mk true false false)
        initial_summary_state demo_dg_final 0 (by decide) (by decide)).1 rfl⟩

/-- C4 counterexample: the claim says the Uplink Worker's handling of an
inbound text message never terminates the worker.  The text `"42"` is
valid JSON, so `json.loads` succeeds, but the parsed value is an `int`, so
`control_msg.get("command")` raises `AttributeError`; the inner handler
only catches `json.JSONDecodeError`, the loop's outer handler catches the
exception and the receive loop exits — the worker terminates. -/
theorem uplink_nonobject_json_terminates_worker :
    handle_client_uplink_step (ClientMessage.text (some (Json.num 42)))
      (TranscribeSettings.mk true false false) = Except.error () :=
  rfl

/-- C4 (amended): undecodable text is ignored and the loop continues; a
decoded JSON object either leaves the settings unchanged with no
acknowledgment or applies exactly one recognized command
(`SET_TRANSLATE` or `SET_PAUSED` with a boolean value) and emits the
matching `setting_update`; but decoded JSON whose top-level value is not an
object raises an uncaught error that terminates the worker. -/
theorem control_text_handling_characterization (settings : TranscribeSettings) :
    handle_control_text none settings = Except.ok (settings, []) ∧
    (∀ fields,
      handle_control_text (some (Json.obj fields)) settings = Except.ok (settings, []) ∨
      (∃ b, handle_control_text (some (Json.obj fields)) settings =
        Except.ok ({ settings with translate := b },
          [UplinkEffect.send_client (ServerEvent.setting_update_translate b)])) ∨
      (∃ b, handle_control_text (some (Json.obj fields)) settings =
        Except.ok ({ settings with is_paused := b },
          [UplinkEffect.send_client (ServerEvent.setting_update_paused b)]))) ∧
    (∀ fields b,
      lookup_field fields "command" = some (Json.str "SET_TRANSLATE") →
      lookup_field fields "value" = some (Json.bool b) →
      handle_control_text (some (Json.obj fields)) settings =
        Except.ok ({ settings with translate := b },
          [UplinkEffect.send_client (ServerEvent.setting_update_translate b)])) ∧
    (∀ fields b,
      lookup_field fields "command" = some (Json.str "SET_PAUSED") →
      lookup_field fields "value" = some (Json.bool b) →
      handle_control_text (some (Json.obj fields)) settings =
        Except.ok ({ settings with is_paused := b },
          [UplinkEffect.send_client (ServerEvent.setting_update_paused b)])) ∧
    (∀ j : Json, (∀ fields, j ≠ Json.obj fields) →
      handle_control_text (some j) settings = Except.error ()) := by
  refine ⟨rfl, ?_, ?_, ?_, ?_⟩
  · intro fields
    simp only [handle_control_text]
    by_cases h1 : json_eq_str (lookup_field fields "command") "SET_TRANSLATE" = true
    · rw [if_pos h1]
      cases hv : lookup_field fields "value" with
      | none => exact Or.inl rfl
      | some v =>
        cases v with
        | bool b => exact Or.inr (Or.inl ⟨b, rfl⟩)
        | null => exact Or.inl rfl
        | num n => exact Or.inl rfl
        | str s => exact Or.inl rfl
        | arr elems => exact Or.inl rfl
        | obj fs => exact Or.inl rfl
    · rw [if_neg h1]
      by_cases h2 : json_eq_str (lookup_field fields "command") "SET_PAUSED" = true
      · rw [if_pos h2]
        cases hv : lookup_field fields "value" with
        | none => exact Or.inl rfl
        | some v =>
          cases v with
          | bool b => exact Or.inr (Or.inr ⟨b, rfl⟩)
          | null => exact Or.inl rfl
          | num n => exact Or.inl rfl
          | str s => exact Or.inl rfl
          | arr elems => exact Or.inl rfl
          | obj fs => exact Or.inl rfl
      · rw [if_neg h2]
        exact Or.inl rfl
  · intro fields b h1 h2
    have hc : json_eq_str (lookup_field fields "command") "SET_TRANSLATE" = true :=
      (json_eq_str_true_iff _ _).2 h1
    simp [handle_control_text, hc, h2]
  · intro fields b h1 h2
    have hc : json_eq_str (lookup_field fields "command") "SET_PAUSED" = true :=
      (json_eq_str_true_iff _ _).2 h1
    have hc' : json_eq_str (lookup_field fields "command") "SET_TRANSLATE" = false := by
      rw [h1]; rfl
    simp [handle_control_text, hc, hc', h2]
  · intro j hj
    cases j with
    | obj fields => exact absurd rfl (hj fields)
    | null => rfl
    | bool b => rfl
    | num n => rfl
    | str s => rfl
    | arr elems => rfl

/-- C4 witness: the JSON number 7 is not an object, and handling it
terminates the worker. -/
theorem control_text_handling_characterization_witness :
    (∀ fields, Json.num 7 ≠ Json.obj fields) ∧
    handle_control_text (some (Json.num 7)) (TranscribeSettings.mk true false false) =
      Except.error () :=
  ⟨fun _ h => Json.noConfusion h,
    (control_text_handling_characterization (TranscribeSettings.mk true false false)).2.2.2.2
      (Json.num 7) (fun _ h => Json.noConfusion h)⟩

/-- C1: a Periodic Summarizer tick dispatches a summarization cycle exactly
when the session is not paused, a first transcript time exists, the buffer
is nonempty, the time elapsed since the reference time (`lastSummaryTime`
if set, else `firstTranscriptTime`) has reached `summaryIntervalSeconds`,
and the buffered texts joined with single spaces reach `minTextLength`.
The hypothesis rules out a stored `lastSummaryTime` equal to the float
`0.0`, which `time.time()` never yields but which Python's `or` fallback
would treat as unset. -/
theorem periodic_summary_dispatch_iff (settings : TranscribeSettings)
    (st : SummaryState) (current_time : ℚ)
    (hlast : st.last_summary_time ≠ some 0) :
    periodic_summary_tick_dispatches settings st current_time = true ↔
      settings.is_paused = false ∧
      ∃ first, st.first_transcript_time = some first ∧
        st.transcript_buffer ≠ [] ∧
        st.summary_interval ≤ current_time - st.last_summary_time.getD first ∧
        st.min_text_length ≤
          (String.intercalate " " (st.transcript_buffer.map (·.text))).length := by
  unfold periodic_summary_tick_dispatches
  cases hp : settings.is_paused with
  | true => simp [hp]
  | false =>
    simp only [Bool.false_eq_true, if_false]
    cases hf : st.first_transcript_time with
    | none => simp [hf]
    | some first =>
      dsimp only
      rw [pyOrTime_eq_getD st.last_summary_time first hlast]
      by_cases hb : st.transcript_buffer.isEmpty
      · have hbe : st.transcript_buffer = [] := by
          cases hc : st.transcript_buffer with
          | nil => rfl
          | cons a l => rw [hc] at hb; exact absurd hb (by simp)
        simp [hb, hbe]
      · have hbe : st.transcript_buffer ≠ [] := by
          intro hc; rw [hc] at hb; exact hb rfl
        rw [if_neg hb]
        by_cases h1 : st.summary_interval ≤ current_time - st.last_summary_time.getD first
        · rw [if_pos h1]
          by_cases h2 : st.min_text_length ≤
              (String.intercalate " " (st.transcript_buffer.map (·.text))).length
          · simp [h1, h2, hbe]
          · simp [h1, h2, hbe]
        · rw [if_neg h1]
          simp [h1]

/-- C1 witness: a state with one 100-character transcript buffered at time
0 and no summary yet dispatches on the tick at time 60. -/
theorem periodic_summary_dispatch_iff_witness :
    demo_ready_state.last_summary_time ≠ some 0 ∧
    periodic_summary_tick_dispatches demo_summary_settings demo_ready_state 60 = true :=
  ⟨by simp [demo_ready_state, initial_summary_state],
    (periodic_summary_dispatch_iff demo_summary_settings demo_ready_state 60
        (by simp [demo_ready_state, initial_summary_state])).mpr
      ⟨rfl, 0, rfl, by decide,
        by simp [demo_ready_state, initial_summary_state],
        by decide⟩⟩

/-- C2: a summarization cycle that completes successfully emits a
`timeline_summary` event (after the `summary_generating` notice), sets
`previousSummary` to the returned rolling summary, sets `lastSummaryTime`
to the cycle's sampled time, and clears the buffer; a failed cycle leaves
the buffer untouched and emits no `timeline_summary`; and the only other
buffer mutation in the session, the Downlink Worker's append, only ever
appends. -/
theorem summary_cycle_success_updates (st : SummaryState) (current_time : ℚ)
    (r : SummaryResult) (msg : String) (f : ℚ)
    (hbuf : st.transcript_buffer ≠ []) (hfirst : st.first_transcript_time = some f) :
    ((get_summary_and_send st current_time (Except.ok r)).1.transcript_buffer = [] ∧
     (get_summary_and_send st current_time (Except.ok r)).1.previous_summary =
       r.rolling_summary ∧
     (get_summary_and_send st current_time (Except.ok r)).1.last_summary_time =
       some current_time ∧
     (∃ tw, (get_summary_and_send st current_time (Except.ok r)).2 =
       [ServerEvent.summary_generating (st.sequence + 1) tw,
        ServerEvent.timeline_summary (st.sequence + 1) tw r.incremental_summary
          r.rolling_summary current_time])) ∧
    ((get_summary_and_send st current_time (Except.error msg)).1.transcript_buffer =
       st.transcript_buffer ∧
     timeline_sequence_numbers
       (get_summary_and_send st current_time (Except.error msg)).2 = []) ∧
    (∀ st2 t now2, (buffer_final_transcript st2 t now2).transcript_buffer =
       st2.transcript_buffer ++ [TranscriptItem.mk t now2]) := by
  obtain ⟨x, xs, hcons⟩ : ∃ x xs, st.transcript_buffer = x :: xs := by
    cases hc : st.transcript_buffer with
    | nil => exact absurd hc hbuf
    | cons a l => exact ⟨a, l, rfl⟩
  refine ⟨⟨?_, ?_, ?_, ?_⟩, ⟨?_, ?_⟩, ?_⟩
  · simp [get_summary_and_send, hcons, hfirst]
  · simp [get_summary_and_send, hcons, hfirst]
  · simp [get_summary_and_send, hcons, hfirst]
  · exact ⟨time_window (st.sequence + 1) (current_time - f) st.summary_interval,
      by simp [get_summary_and_send, hcons, hfirst]⟩
  · simp [get_summary_and_send, hcons, hfirst]
  · simp [get_summary_and_send, hcons, hfirst, timeline_sequence_numbers]
  · intro st2 t now2
    simp only [buffer_final_transcript]
    split <;> rfl

/-- C2 witness: a concrete successful cycle clears the buffer. -/
theorem summary_cycle_success_updates_witness :
    demo_small_state.transcript_buffer ≠ [] ∧
    (get_summary_and_send demo_small_state 70
      (Except.ok (SummaryResult.mk "i" "r"))).1.transcript_buffer = [] :=
  ⟨by decide,
    (summary_cycle_success_updates demo_small_state 70 (SummaryResult.mk "i" "r")
        "m" 0 (by decide) rfl).1.1⟩

/-- C10: a summarization cycle that fails after dispatch keeps the
incremented sequence counter while buffer, previous summary and last
summary time are unchanged, and its events are the `summary_generating`
notice followed by `summary_error` — no `timeline_summary` with that
sequence number is ever emitted.  The closed half exhibits a run
(success at 60, failure at 130, success at 200) whose `summary_generating`
sequence numbers are 1, 2, 3 while the successful `timeline_summary`
sequence numbers are 1 and 3: sequence 2 is skipped. -/
theorem failed_cycle_preserves_state (st : SummaryState) (current_time : ℚ)
    (msg : String) (f : ℚ)
    (hbuf : st.transcript_buffer ≠ []) (hfirst : st.first_transcript_time = some f) :
    ((get_summary_and_send st current_time (Except.error msg)).1.sequence =
       st.sequence + 1 ∧
     (get_summary_and_send st current_time (Except.error msg)).1.transcript_buffer =
       st.transcript_buffer ∧
     (get_summary_and_send st current_time (Except.error msg)).1.previous_summary =
       st.previous_summary ∧
     (get_summary_and_send st current_time (Except.error msg)).1.last_summary_time =
       st.last_summary_time ∧
     (∃ tw, (get_summary_and_send st current_time (Except.error msg)).2 =
       [ServerEvent.summary_generating (st.sequence + 1) tw,
        ServerEvent.summary_error msg])) ∧
    (timeline_sequence_numbers (run_steps initial_summary_state demo_steps).2 = [1, 3] ∧
     generating_sequence_numbers (run_steps initial_summary_state demo_steps).2 =
       [1, 2, 3]) := by
  obtain ⟨x, xs, hcons⟩ : ∃ x xs, st.transcript_buffer = x :: xs := by
    cases hc : st.transcript_buffer with
    | nil => exact absurd hc hbuf
    | cons a l => exact ⟨a, l, rfl⟩
  refine ⟨⟨?_, ?_, ?_, ?_, ?_⟩, by decide, by decide⟩
  · simp [get_summary_and_send, hcons, hfirst]
  · simp [get_summary_and_send, hcons, hfirst]
  · simp [get_summary_and_send, hcons, hfirst]
  · simp [get_summary_and_send, hcons, hfirst]
  · exact ⟨time_window (st.sequence + 1) (current_time - f) st.summary_interval,
      by simp [get_summary_and_send, hcons, hfirst]⟩

/-- C10 witness: a concrete failed cycle leaves the sequence incremented
to 1 from a state whose counter was 0. -/
theorem failed_cycle_preserves_state_witness :
    demo_small_state.transcript_buffer ≠ [] ∧
    (get_summary_and_send demo_small_state 70 (Except.error "m")).1.sequence = 1 :=
  ⟨by decide,
    (failed_cycle_preserves_state demo_small_state 70 "m" 0 (by decide) rfl).1.1⟩

/-- C7 counterexample: the claim says the pause flag changes no behavior
other than Audio Sink writes and summary-buffer appends, but it also gates
the Periodic Summarizer: at a state where every dispatch condition holds,
the tick dispatches when not paused and dispatches nothing when paused. -/
theorem pause_flag_gates_summarizer_cx :
    periodic_summary_tick_dispatches demo_summary_settings demo_ready_state 60 = true ∧
    periodic_summary_tick_dispatches
      { demo_summary_settings with is_paused := true } demo_ready_state 60 = false := by
  constructor
  · simp only [periodic_summary_tick_dispatches, demo_summary_settings, demo_ready_state,
      initial_summary_state, pyOrTime]
    norm_num
    decide
  · rfl

/-- C7 (amended): after pausing, non-empty binary frames are still
forwarded to the vendor but not written to the Audio Sink, and unpausing
resumes the writes; besides gating Sink writes and summary-buffer appends,
the pause flag also stops Periodic Summarizer ticks from dispatching, while
the Downlink Worker's client-visible events and translation dispatches are
unaffected by it. -/
theorem pause_effects_characterization (settings : TranscribeSettings)
    (data : List Nat) (hd : data ≠ []) :
    (handle_client_uplink_step (ClientMessage.binary data)
        { settings with is_paused := true } =
      Except.ok ({ settings with is_paused := true },
        [UplinkEffect.forward_vendor data])) ∧
    (handle_client_uplink_step (ClientMessage.binary data)
        { settings with is_paused := false } =
      Except.ok ({ settings with is_paused := false },
        [UplinkEffect.forward_vendor data, UplinkEffect.write_sink data])) ∧
    (∀ st result current_time,
      (forward_to_client_step { settings with is_paused := true } st result current_time).2 =
        (forward_to_client_step { settings with is_paused := false } st result current_time).2) ∧
    (∀ st result current_time,
      (forward_to_client_step { settings with is_paused := true } st result current_time).1 = st) ∧
    (∀ st current_time,
      periodic_summary_tick_dispatches { settings with is_paused := true } st current_time = false) := by
  have hlen : data.length > 0 := List.length_pos.mpr hd
  refine ⟨?_, ?_, ?_, ?_, ?_⟩
  · simp [handle_client_uplink_step, hlen]
  · simp [handle_client_uplink_step, hlen]
  · intro st result current_time
    by_cases h1 : result.type = some "Metadata" ∨ result.type = some "UtteranceEnd"
    · simp [forward_to_client_step, h1]
    · by_cases h2 : result.transcript = ""
      · simp [forward_to_client_step, h1, h2]
      · cases hf : result.is_final <;>
          simp [forward_to_client_step, h1, h2, hf]
  · intro st result current_time
    by_cases h1 : result.type = some "Metadata" ∨ result.type = some "UtteranceEnd"
    · simp [forward_to_client_step, h1]
    · by_cases h2 : result.transcript = ""
      · simp [forward_to_client_step, h1, h2]
      · cases hf : result.is_final <;>
          simp [forward_to_client_step, h1, h2, hf]
  · intro st current_time
    rfl

/-- C7 witness: a concrete one-byte frame while paused is forwarded to the
vendor and not written to the Audio Sink. -/
theorem pause_effects_characterization_witness :
    ([1] : List Nat) ≠ [] ∧
    handle_client_uplink_step (ClientMessage.binary [1])
        (TranscribeSettings.mk true false true) =
      Except.ok (TranscribeSettings.mk true false true,
        [UplinkEffect.forward_vendor [1]]) :=
  ⟨by decide,
    (pause_effects_characterization (TranscribeSettings.mk true false false)
        [1] (by decide)).1⟩

/-- Floor of a rational bracketed by an integer. -/
theorem rat_floor_z_eq (q : ℚ) (z : Int) (h1 : (z : ℚ) ≤ q) (h2 : q < z + 1) :
    rat_floor_z q = z := by
  unfold rat_floor_z
  exact Int.floor_eq_iff.mpr ⟨h1, h2⟩

/-- Python `int(..)` of a nonnegative float bracketed by an integer. -/
theorem pyInt_nonneg_eq (q : ℚ) (z : Int) (h0 : 0 ≤ q) (h1 : (z : ℚ) ≤ q)
    (h2 : q < z + 1) : pyInt q = z := by
  unfold pyInt
  rw [if_pos h0]
  exact rat_floor_z_eq q z h1 h2

/-- C8 counterexample: for the first cycle (`sequence = 1`) at
`elapsed_total = 130` seconds and a 60-second interval, the code's label is
`"00:10 - 02:10"` while the claimed rendering of the span
`[elapsed - interval, elapsed]` is `"01:10 - 02:10"`: the start component
does not equal `elapsed - interval` formatted as minutes and seconds. -/
theorem time_window_seq1_cx :
    time_window 1 130 60 ≠ spec_time_window 130 60 ∧
    time_window 1 130 60 = "00:10 - 02:10" ∧
    spec_time_window 130 60 = "01:10 - 02:10" := by
  have a1 : pyFloorDiv ((130:ℚ) - 60) 60 = 1 := by
    unfold pyFloorDiv
    rw [rat_floor_z_eq (((130:ℚ) - 60) / 60) 1 (by norm_num) (by norm_num)]
    norm_num
  have a2 : pyMod ((130:ℚ) - 60) 60 = 10 := by
    unfold pyMod
    rw [a1]
    norm_num
  have a3 : pyInt (pyMod ((130:ℚ) - 60) 60) = 10 := by
    rw [a2]
    exact pyInt_nonneg_eq 10 10 (by norm_num) (by norm_num) (by norm_num)
  have c1 : pyInt (pyFloorDiv ((130:ℚ) - 60) 60) = 1 := by
    rw [a1]
    exact pyInt_nonneg_eq 1 1 (by norm_num) (by norm_num) (by norm_num)
  have b1 : pyFloorDiv (130:ℚ) 60 = 2 := by
    unfold pyFloorDiv
    rw [rat_floor_z_eq ((130:ℚ) / 60) 2 (by norm_num) (by norm_num)]
    norm_num
  have b2 : pyInt (pyFloorDiv (130:ℚ) 60) = 2 := by
    rw [b1]
    exact pyInt_nonneg_eq 2 2 (by norm_num) (by norm_num) (by norm_num)
  have b3 : pyMod (130:ℚ) 60 = 10 := by
    unfold pyMod
    rw [b1]
    norm_num
  have b4 : pyInt (pyMod (130:ℚ) 60) = 10 := by
    rw [b3]
    exact pyInt_nonneg_eq 10 10 (by norm_num) (by norm_num) (by norm_num)
  have hw : time_window 1 130 60 = "00:10 - 02:10" := by
    simp only [time_window]
    rw [a3, b2, b4]
    decide
  have hs : spec_time_window 130 60 = "01:10 - 02:10" := by
    simp only [spec_time_window, mmss]
    rw [c1, a3, b2, b4]
    decide
  exact ⟨by rw [hw, hs]; decide, hw, hs⟩

/-- C8 (amended): from the second cycle on, the `time_window` label is
exactly the span `[elapsed - interval, elapsed]` rendered as
`MM:SS - MM:SS`; on the first cycle (`sequence = 1`) the minutes part of
the start component is forced to `"00"` while its seconds part is still
`elapsed - interval` modulo 60. -/
theorem time_window_characterization :
    (∀ (sequence : Nat) (elapsed_total summary_interval : ℚ), 1 < sequence →
      time_window sequence elapsed_total summary_interval =
        spec_time_window elapsed_total summary_interval) ∧
    (∀ elapsed_total summary_interval : ℚ,
      time_window 1 elapsed_total summary_interval =
        pad2 0 ++ ":" ++ pad2 (pyInt (pyMod (elapsed_total - summary_interval) 60)) ++
          " - " ++ pad2 (pyInt (pyFloorDiv elapsed_total 60)) ++ ":" ++
          pad2 (pyInt (pyMod elapsed_total 60))) ∧
    pad2 0 = "00" := by
  refine ⟨?_, ?_, by decide⟩
  · intro s e i h
    simp only [time_window, spec_time_window, mmss]
    rw [if_pos h]
    simp [String.append_assoc]
  · intro e i
    rfl

/-- C8 witness: at sequence 2 the code's label coincides with the claimed
rendering. -/
theorem time_window_characterization_witness :
    1 < 2 ∧ time_window 2 130 60 = spec_time_window 130 60 :=
  ⟨by decide, time_window_characterization.1 2 130 60 (by decide)⟩

/-- C6: every session that calls `create_local_wave_file` with the
`meeting_id` argument omitted gets the identical wave-file path — the
default ULID is computed once at function definition, not per call — so the
list of paths of `n` such sessions is `n` copies of one fixed path. -/
theorem session_wave_paths_constant (counter n : Nat) :
    session_wave_paths counter n =
      List.replicate n
        (create_local_wave_file (storage_module_default counter).1 none) := by
  simp only [session_wave_paths]
  induction n with
  | zero => rfl
  | succ k ih =>
    rw [List.range_succ, List.map_append, ih, List.replicate_succ']
    rfl

end RoundNote
